import Mathlib

/-!
Verification of the to-do list application: data model and request handling.

The persistence schema comes from src/lists/models.py.  In that file the
class List declares no fields of its own (only the auto-generated id), and
its static method create_new takes no arguments and has the body pass.  The
view tests in src/lists/tests/test_views.py, however, exercise an owner
field, a shared_with many-to-many relation, and a create_new that accepts an
initial item text and an owner.  The form and view modules (lists/forms.py,
lists/views.py, lists/urls.py) are not part of the source tree here; where a
definition is reconstructed from the specification rather than translated
from source, its doc comment says so explicitly.

Records are embedded as structures, the relational store as an explicit
state (DB) threaded through the operations, and each request handler as a
function from a state and request data to a new state and a response value.
-/

/-- An Item row, from class Item in src/lists/models.py: a text field and a
foreign key to its List (held as the list id), plus the auto id. -/
structure ItemRec where
  id : Nat
  text : String
  list : Nat
deriving DecidableEq

/-- A List row.  The id is the auto-generated key from src/lists/models.py.
The owner and shared_with fields are Modelled from the spec: the snapshot of
src/lists/models.py declares neither field, although the tests in
src/lists/tests/test_views.py require both (see the C1 theorem); the spec
says a List "has a generated identifier, an optional owner (User, nullable),
and a set of users it is shared with (many-to-many)".  Users are identified
by email, so owner is an optional email and shared_with a set of emails. -/
structure ListRec where
  id : Nat
  owner : Option String
  shared_with : List String
deriving DecidableEq

/-- The relational store: List rows, Item rows, registered user emails, and
the auto-increment counters for the two id columns. -/
structure DB where
  lists : List ListRec
  items : List ItemRec
  users : List String
  nextListId : Nat
  nextItemId : Nat
deriving DecidableEq

namespace Item

/-- Default of the text column: models.TextField with default set to the
empty string (src/lists/models.py). -/
def text_default : String := ""

/-- The unique_together option of class Meta of Item in src/lists/models.py:
the pair of columns (list, text) is declared unique at the schema level. -/
def meta_unique_together : List (String × String) := [("list", "text")]

/-- The ordering option of class Meta of Item in src/lists/models.py. -/
def meta_ordering : List String := ["id"]

end Item

namespace ListModel

/-- The columns of the List table as declared in src/lists/models.py: the
class body declares no fields, so only the auto-generated id column exists.
In particular there is no owner column and no shared_with relation. -/
def fieldNames : List String := ["id"]

end ListModel

/-- An Item row built without an explicit text argument: the text column
takes its declared default (src/lists/models.py). -/
def mkItemDefault (id : Nat) (listId : Nat) : ItemRec :=
  { id := id, text := Item.text_default, list := listId }

/-- True when some List row has the given id (the foreign-key target of the
list column of Item exists). -/
def fkOk (db : DB) (listId : Nat) : Bool :=
  db.lists.any fun lr => lr.id == listId

/-- True when the list already holds an item with exactly this text. -/
def hasItem (db : DB) (listId : Nat) (text : String) : Bool :=
  db.items.any fun it => it.list == listId && it.text == text

/-- Storage-level insertion of an Item row, enforcing exactly the declared
schema of src/lists/models.py: the foreign key on the list column must
resolve, and the unique_together constraint on (list, text) rejects a row
duplicating an existing (list, text) pair.  No other constraint exists; in
particular nothing restricts the text itself, so the empty string is
storable. -/
def dbInsertItem (db : DB) (listId : Nat) (text : String) : Option DB :=
  if fkOk db listId && !(hasItem db listId text) then
    some { db with
           items := db.items ++ [{ id := db.nextItemId, text := text, list := listId }],
           nextItemId := db.nextItemId + 1 }
  else none

/-- The absolute URL of a list page.  Modelled from the spec: the route
table (lists/urls.py) is not in the source tree; the spec names the route
for a list with a given id as /lists/<id>/. -/
def listUrl (id : Nat) : String := "/lists/" ++ toString id ++ "/"

namespace ListModel

/-- get_absolute_url of class List in src/lists/models.py: the reverse of
the view_list route at the id of the list. -/
def get_absolute_url (id : Nat) : String := listUrl id

/-- create_new of class List exactly as written in src/lists/models.py: a
static method with no parameters whose body is pass.  It reads and writes
nothing and returns None; in state-passing form it leaves the store
untouched and yields no list id. -/
def create_new (db : DB) : DB × Option Nat := (db, none)

end ListModel

/-- A store holding one list (id 1) and nothing else. -/
def dbOneList : DB :=
  { lists := [{ id := 1, owner := none, shared_with := [] }],
    items := [], users := [], nextListId := 2, nextItemId := 1 }

/-- dbOneList after the item with text "textey" is stored in list 1. -/
def dbTextey : DB :=
  { dbOneList with items := [{ id := 1, text := "textey", list := 1 }], nextItemId := 2 }

/-- dbOneList after an empty-text item is stored in list 1. -/
def dbEmptyItem : DB :=
  { dbOneList with items := [{ id := 1, text := "", list := 1 }], nextItemId := 2 }

/-- The two user-facing validation signals of the form layer. -/
inductive ItemError where
  | emptyItem
  | duplicateItem
deriving DecidableEq

/-- The empty-item validation signal. -/
def EMPTY_ITEM_ERROR : ItemError := ItemError.emptyItem

/-- The duplicate-item validation signal. -/
def DUPLICATE_ITEM_ERROR : ItemError := ItemError.duplicateItem

/-- What a request handler yields: a redirect to a URL, a rendered template
carrying an optional form error, or the not-found response of the framework. -/
inductive Response where
  | redirect (url : String)
  | render (template : String) (err : Option ItemError)
  | notFound
deriving DecidableEq

/-- Modelled from the spec: the validation of ExistingListItemForm
(lists/forms.py is not in the source tree).  The contract of the spec reads:
given submitted text and a target list, reject if text is empty (signal
EMPTY_ITEM_ERROR) or if an item with identical text already exists in that
list (signal DUPLICATE_ITEM_ERROR); the checks are applied in that order. -/
def existingListItemFormErrors (db : DB) (listId : Nat) (text : String) : Option ItemError :=
  if text = "" then some EMPTY_ITEM_ERROR
  else if hasItem db listId text then some DUPLICATE_ITEM_ERROR
  else none

/-- Modelled from the spec: validity of NewListForm for the home page
(lists/forms.py is not in the source tree); the target list does not exist
yet, so only the emptiness check applies. -/
def newListFormIsValid (text : String) : Bool := !(text == "")

/-- Modelled from the spec: the list-creation operation as the spec states
it ("accepts initial item text and an optional owner; creates the List then
the first Item"); the create_new actually present in src/lists/models.py is
an argumentless stub (see the C2 theorem).  Returns the new store and the
id of the created list. -/
def createNewList (db : DB) (text : String) (owner : Option String) : DB × Nat :=
  let lid := db.nextListId
  let db1 := { db with
               lists := db.lists ++ [({ id := lid, owner := owner, shared_with := [] } : ListRec)],
               nextListId := lid + 1 }
  let db2 := { db1 with
               items := db1.items ++ [({ id := db1.nextItemId, text := text, list := lid } : ItemRec)],
               nextItemId := db1.nextItemId + 1 }
  (db2, lid)

/-- Modelled from the spec: the new_list view (lists/views.py is not in the
source tree).  On valid text it creates the List and its first Item and
redirects to the absolute URL of the created list; on validation failure
nothing is persisted and the home page is re-rendered with the error
attached to the form. -/
def new_list (db : DB) (user : Option String) (text : String) : DB × Response :=
  if newListFormIsValid text then
    let r := createNewList db text user
    (r.1, Response.redirect (listUrl r.2))
  else
    (db, Response.render "home.html" (some EMPTY_ITEM_ERROR))

/-- Modelled from the spec: the view_list view (lists/views.py is not in the
source tree).  A request carries either no posted text (GET) or the
submitted text (POST).  GET renders the list page; POST with valid text
stores the item and redirects to the same list page; POST with invalid text
re-renders the list page with the error and persists nothing; a missing list
id falls through to the framework 404. -/
def view_list (db : DB) (listId : Nat) (post : Option String) : DB × Response :=
  if fkOk db listId then
    match post with
    | none => (db, Response.render "list.html" none)
    | some text =>
      match existingListItemFormErrors db listId text with
      | some e => (db, Response.render "list.html" (some e))
      | none =>
        match dbInsertItem db listId text with
        | some db2 => (db2, Response.redirect (listUrl listId))
        | none => (db, Response.render "list.html" none)
  else (db, Response.notFound)

/-- Adds an email to the shared_with set of the list with the given id,
leaving every other list untouched; the relation is a set, so an email
already present is not added twice. -/
def addShared (sharee : String) (listId : Nat) (lr : ListRec) : ListRec :=
  if lr.id == listId then
    if lr.shared_with.contains sharee then lr
    else { lr with shared_with := lr.shared_with ++ [sharee] }
  else lr

/-- Modelled from the spec: the share_list view (lists/views.py is not in
the source tree).  It looks up the User by the posted sharee email, adds
that user to the shared_with set of the list, and redirects to the list
page regardless of the outcome of the lookup; a missing list id falls
through to the framework 404. -/
def share_list (db : DB) (listId : Nat) (sharee : String) : DB × Response :=
  if fkOk db listId then
    let db2 :=
      if db.users.contains sharee then
        { db with lists := db.lists.map (addShared sharee listId) }
      else db
    (db2, Response.redirect (listUrl listId))
  else (db, Response.notFound)

/-- The lists associated with a user: those they own and those shared with
them. -/
def ownedOrShared (db : DB) (email : String) : List ListRec :=
  db.lists.filter fun lr => lr.owner == some email || lr.shared_with.contains email

/-- Modelled from the spec: the my_lists view (lists/views.py is not in the
source tree).  It looks up the User by email and renders the dedicated
template over all lists associated with that user, owned or shared. -/
def my_lists (db : DB) (email : String) : List ListRec × Response :=
  if db.users.contains email then
    (ownedOrShared db email, Response.render "my_lists.html" none)
  else ([], Response.notFound)

/-- Insertion into a list of items sorted by ascending id. -/
def insertById (it : ItemRec) : List ItemRec → List ItemRec
  | [] => [it]
  | x :: xs => if it.id ≤ x.id then it :: x :: xs else x :: insertById it xs

/-- The items of a list ordered by the id column, honouring the ordering
option of Item.Meta in src/lists/models.py. -/
def itemsOf (db : DB) (listId : Nat) : List ItemRec :=
  ((db.items.filter fun it => it.list == listId).foldr insertById [])

/-- The visible rows of the list page: the items of the list in order, each
shown as its one-based position, a colon and its text. -/
def renderedRows (db : DB) (listId : Nat) : List String :=
  (itemsOf db listId).enum.map fun p => toString (p.1 + 1) ++ ": " ++ p.2.text

/-- C1: the claim says every List record has a generated identifier, a
nullable owner field referencing a User, and a many-to-many shared_with set.
Evaluating the declared schema of src/lists/models.py shows the List table
holds only the auto id column: the owner and shared_with fields the claim
(and the tests of the repository itself, e.g. ShareListTest.test_post_saves_to_shared_with)
require are absent from the model definition. -/
theorem C1_source_List_lacks_fields :
    ListModel.fieldNames = ["id"] ∧
    "owner" ∉ ListModel.fieldNames ∧
    "shared_with" ∉ ListModel.fieldNames := by
  decide

/-- C2: the claim says List.create_new accepts an initial item text and an
optional owner and creates the List and then its first Item, returning the
created list.  The create_new actually written in src/lists/models.py is a
zero-argument stub: for every store it persists nothing and returns no
list, contradicting the tests that call it with a text and an owner. -/
theorem C2_create_new_stub :
    ∀ db : DB, ListModel.create_new db = (db, none) := by
  intro db
  rfl

/-- C3, counterexample: the claim asserts that the persistence schema itself
imposes no uniqueness constraint on (list, text) pairs, so that at a store
holding the item "textey" in list 1 the storage layer would accept the same
pair again.  Both parts are false: Item.Meta declares unique_together on
(list, text), and the storage-level insert of the duplicate is rejected. -/
theorem C3_schema_constraint_counterexample :
    ¬ (Item.meta_unique_together = [] ∨ (dbInsertItem dbTextey 1 "textey").isSome = true) := by
  decide

/-- C3, amended: duplicate text within the same list is rejected at
validation time (the form signals DUPLICATE_ITEM_ERROR) and, in addition,
the persistence schema itself constrains (list, text) pairs to be unique
through the unique_together option of Item.Meta, so the storage layer also
rejects the duplicate row. -/
theorem C3_duplicate_rejected_at_both_layers
    (db : DB) (listId : Nat) (text : String)
    (ht : ¬ (text = "")) (hd : hasItem db listId text = true) :
    Item.meta_unique_together = [("list", "text")] ∧
    existingListItemFormErrors db listId text = some DUPLICATE_ITEM_ERROR ∧
    dbInsertItem db listId text = none := by
  refine ⟨rfl, ?_, ?_⟩
  · simp [existingListItemFormErrors, ht, hd]
  · simp [dbInsertItem, hd]

/-- Witness for C3 at the concrete store dbTextey: the stored pair
(list 1, "textey") is a duplicate of itself, all hypotheses hold, and both
layers reject it. -/
theorem C3_witness :
    Item.meta_unique_together = [("list", "text")] ∧
    existingListItemFormErrors dbTextey 1 "textey" = some DUPLICATE_ITEM_ERROR ∧
    dbInsertItem dbTextey 1 "textey" = none :=
  C3_duplicate_rejected_at_both_layers dbTextey 1 "textey" (by decide) (by decide)

/-- C4, counterexample: the claim quantifies over every text already present
in the list and promises the DUPLICATE_ITEM_ERROR signal.  The empty string
is such a text once an empty-text item has been stored through the model
layer (possible by C10, here the store dbEmptyItem), yet re-submitting it to
the list page surfaces EMPTY_ITEM_ERROR, not DUPLICATE_ITEM_ERROR: the
emptiness check of the contract comes first.  No second item is created. -/
theorem C4_empty_duplicate_counterexample :
    hasItem dbEmptyItem 1 "" = true ∧
    view_list dbEmptyItem 1 (some "") =
      (dbEmptyItem, Response.render "list.html" (some EMPTY_ITEM_ERROR)) ∧
    ¬ ((view_list dbEmptyItem 1 (some "")).2 =
        Response.render "list.html" (some DUPLICATE_ITEM_ERROR)) := by
  decide

/-- C4, amended: for every list and every non-empty text that already
appears as an Item of that list, submitting that text again never creates a
second Item (the store is unchanged) and the response surfaces
DUPLICATE_ITEM_ERROR on the re-rendered list page, without a redirect; for
the empty text no Item is created either, but the signal surfaced is
EMPTY_ITEM_ERROR. -/
theorem C4_duplicate_rerenders_list_page
    (db : DB) (listId : Nat) (text : String)
    (hl : fkOk db listId = true) (ht : ¬ (text = "")) (hd : hasItem db listId text = true) :
    view_list db listId (some text) =
      (db, Response.render "list.html" (some DUPLICATE_ITEM_ERROR)) := by
  simp [view_list, existingListItemFormErrors, hl, ht, hd]

/-- Witness for C4 at the concrete store dbTextey: list 1 exists, "textey"
is non-empty and already present, and the view re-renders the list page
with the duplicate signal while leaving the store unchanged. -/
theorem C4_witness :
    view_list dbTextey 1 (some "textey") =
      (dbTextey, Response.render "list.html" (some DUPLICATE_ITEM_ERROR)) :=
  C4_duplicate_rerenders_list_page dbTextey 1 "textey" (by decide) (by decide) (by decide)

/-- C5: submitting empty text, whether through the home page (the new_list
view) or to an existing list page (the view_list view), persists nothing —
the store is returned unchanged — and re-renders the originating template
with EMPTY_ITEM_ERROR attached, instead of redirecting. -/
theorem C5_empty_text_rejected
    (db : DB) (user : Option String) (listId : Nat) (hl : fkOk db listId = true) :
    new_list db user "" = (db, Response.render "home.html" (some EMPTY_ITEM_ERROR)) ∧
    view_list db listId (some "") = (db, Response.render "list.html" (some EMPTY_ITEM_ERROR)) := by
  constructor
  · simp [new_list, newListFormIsValid]
  · simp [view_list, existingListItemFormErrors, hl]

/-- Witness for C5 at the concrete store dbOneList with its list 1. -/
theorem C5_witness :
    new_list dbOneList none "" = (dbOneList, Response.render "home.html" (some EMPTY_ITEM_ERROR)) ∧
    view_list dbOneList 1 (some "") = (dbOneList, Response.render "list.html" (some EMPTY_ITEM_ERROR)) :=
  C5_empty_text_rejected dbOneList none 1 (by decide)

/-- C6: a POST of valid text (non-empty and not already in the list) to the
page of an existing list appends exactly one new Item row carrying that
text and that list id, leaves everything else unchanged, and responds with
a redirect to the same list URL. -/
theorem C6_valid_post_appends_and_redirects
    (db : DB) (listId : Nat) (text : String)
    (hl : fkOk db listId = true) (ht : ¬ (text = "")) (hd : hasItem db listId text = false) :
    view_list db listId (some text) =
      ({ db with
         items := db.items ++ [({ id := db.nextItemId, text := text, list := listId } : ItemRec)],
         nextItemId := db.nextItemId + 1 },
       Response.redirect (listUrl listId)) := by
  simp [view_list, existingListItemFormErrors, dbInsertItem, hl, ht, hd]

/-- Witness for C6 at the concrete store dbOneList: posting a fresh text to
list 1 appends the one new row and redirects to /lists/1/. -/
theorem C6_witness :
    view_list dbOneList 1 (some "A new item for an existing list") =
      ({ dbOneList with
         items := dbOneList.items ++
           [({ id := dbOneList.nextItemId, text := "A new item for an existing list", list := 1 } : ItemRec)],
         nextItemId := dbOneList.nextItemId + 1 },
       Response.redirect (listUrl 1)) :=
  C6_valid_post_appends_and_redirects dbOneList 1 "A new item for an existing list"
    (by decide) (by decide) (by decide)

/-- A store holding one unowned list (id 1) and one registered user. -/
def dbShare : DB :=
  { lists := [{ id := 1, owner := none, shared_with := [] }],
    items := [], users := ["share@email.com"], nextListId := 2, nextItemId := 1 }

/-- addShared never changes the id of a list row. -/
theorem addShared_id (s : String) (listId : Nat) (lr : ListRec) :
    (addShared s listId lr).id = lr.id := by
  unfold addShared
  split
  · split <;> rfl
  · rfl

/-- addShared puts the email into the shared_with set of the targeted row. -/
theorem addShared_mem (s : String) (listId : Nat) (lr : ListRec) (h : lr.id = listId) :
    s ∈ (addShared s listId lr).shared_with := by
  have hb : (lr.id == listId) = true := by simp [h]
  by_cases hc : s ∈ lr.shared_with
  · have he : addShared s listId lr = lr := by
      simp [addShared, hb, hc]
    rw [he]
    exact hc
  · have he : addShared s listId lr = { lr with shared_with := lr.shared_with ++ [s] } := by
      simp [addShared, hb, hc]
    rw [he]
    simp

/-- C7: a POST of a sharee email to the share route of an existing list
responds with a redirect to that list page regardless of the outcome of the
user lookup, and when a user with that email is registered, the list row
now carries the email in its shared_with set. -/
theorem C7_share_adds_and_redirects
    (db : DB) (listId : Nat) (sharee : String) (hl : fkOk db listId = true) :
    (share_list db listId sharee).2 = Response.redirect (listUrl listId) ∧
    (db.users.contains sharee = true →
      ∃ lr, lr ∈ (share_list db listId sharee).1.lists ∧
        lr.id = listId ∧ sharee ∈ lr.shared_with) := by
  constructor
  · simp [share_list, hl]
  · intro hu
    have hu' : sharee ∈ db.users := by simpa using hu
    obtain ⟨lr, hmem, hid⟩ := List.any_eq_true.mp hl
    have hid' : lr.id = listId := by simpa using hid
    have hshare : (share_list db listId sharee).1 =
        { db with lists := db.lists.map (addShared sharee listId) } := by
      simp [share_list, hl, hu']
    refine ⟨addShared sharee listId lr, ?_, ?_, ?_⟩
    · rw [hshare]
      exact List.mem_map_of_mem _ hmem
    · rw [addShared_id, hid']
    · exact addShared_mem sharee listId lr hid'

/-- Witness for C7 at the concrete store dbShare: sharing list 1 with the
registered email redirects to /lists/1/ and records the email in the
shared_with set of the row with id 1. -/
theorem C7_witness :
    (share_list dbShare 1 "share@email.com").2 = Response.redirect (listUrl 1) ∧
    ∃ lr, lr ∈ (share_list dbShare 1 "share@email.com").1.lists ∧
      lr.id = 1 ∧ "share@email.com" ∈ lr.shared_with :=
  ⟨(C7_share_adds_and_redirects dbShare 1 "share@email.com" (by decide)).1,
   (C7_share_adds_and_redirects dbShare 1 "share@email.com" (by decide)).2 (by decide)⟩

/-- C8: for a registered email, the my-lists view renders the dedicated
template, its content is exactly the lists associated with that user — a
list row appears there precisely when it is in the store and the user owns
it or appears in its shared_with set — and after sharing an existing list
with that email, a row with that list id is visible on the page. -/
theorem C8_my_lists_shows_owned_and_shared
    (db : DB) (email : String) (listId : Nat)
    (hu : db.users.contains email = true) (hl : fkOk db listId = true) :
    (my_lists db email).2 = Response.render "my_lists.html" none ∧
    (∀ lr : ListRec, lr ∈ (my_lists db email).1 ↔
      (lr ∈ db.lists ∧ (lr.owner = some email ∨ email ∈ lr.shared_with))) ∧
    (∃ lr, lr ∈ (my_lists (share_list db listId email).1 email).1 ∧ lr.id = listId) := by
  have hu' : email ∈ db.users := by simpa using hu
  refine ⟨?_, ?_, ?_⟩
  · simp [my_lists, hu']
  · intro lr
    simp [my_lists, hu', ownedOrShared]
  · obtain ⟨lr, hmem, hid⟩ := List.any_eq_true.mp hl
    have hid' : lr.id = listId := by simpa using hid
    have hshare : (share_list db listId email).1 =
        { db with lists := db.lists.map (addShared email listId) } := by
      simp [share_list, hl, hu']
    refine ⟨addShared email listId lr, ?_, ?_⟩
    · rw [hshare]
      have hmem' : addShared email listId lr ∈ db.lists.map (addShared email listId) :=
        List.mem_map_of_mem _ hmem
      have hsw : email ∈ (addShared email listId lr).shared_with :=
        addShared_mem email listId lr hid'
      have hpred : ((addShared email listId lr).owner == some email ||
          (addShared email listId lr).shared_with.contains email) = true := by
        simp [hsw]
      simp only [my_lists, ownedOrShared]
      rw [if_pos]
      · exact List.mem_filter.mpr ⟨hmem', hpred⟩
      · simpa using hu'
    · rw [addShared_id, hid']

/-- Witness for C8 at the concrete store dbShare: the registered user sees
the dedicated template, the characterisation of the shown rows holds, and
after list 1 is shared with them a row with id 1 is on their page. -/
theorem C8_witness :
    (my_lists dbShare "share@email.com").2 = Response.render "my_lists.html" none ∧
    (∀ lr : ListRec, lr ∈ (my_lists dbShare "share@email.com").1 ↔
      (lr ∈ dbShare.lists ∧
        (lr.owner = some "share@email.com" ∨ "share@email.com" ∈ lr.shared_with))) ∧
    (∃ lr, lr ∈ (my_lists (share_list dbShare 1 "share@email.com").1 "share@email.com").1 ∧
      lr.id = 1) :=
  C8_my_lists_shows_owned_and_shared dbShare "share@email.com" 1 (by decide) (by decide)

/-- The empty store: no lists, no items, no users, both counters at 1. -/
def db0 : DB :=
  { lists := [], items := [], users := [], nextListId := 1, nextItemId := 1 }

/-- C9: an anonymous POST of "Buy milk" to the list-creation route on an
empty store creates exactly one List, with id 1 and no owner, and exactly
one Item with text "Buy milk" in that list, redirects to /lists/1/, and a
subsequent GET of that URL shows the single row "1: Buy milk". -/
theorem C9_buy_milk_scenario :
    new_list db0 none "Buy milk" =
      ({ lists := [{ id := 1, owner := none, shared_with := [] }],
         items := [{ id := 1, text := "Buy milk", list := 1 }],
         users := [], nextListId := 2, nextItemId := 2 },
       Response.redirect "/lists/1/") ∧
    (new_list db0 none "Buy milk").2 = Response.redirect (listUrl 1) ∧
    renderedRows (new_list db0 none "Buy milk").1 1 = ["1: Buy milk"] ∧
    (view_list (new_list db0 none "Buy milk").1 1 none).2 = Response.render "list.html" none := by
  refine ⟨?_, ?_, ?_, ?_⟩ <;> rfl

/-- C10: at the persistence layer nothing enforces non-emptiness of item
text: an Item built without an explicit text gets the declared column
default, the empty string, and the storage layer accepts an empty-text row
(here into list 1 of dbOneList, yielding dbEmptyItem). -/
theorem C10_empty_text_storable :
    Item.text_default = "" ∧
    (mkItemDefault 1 1).text = "" ∧
    dbInsertItem dbOneList 1 "" = some dbEmptyItem := by
  refine ⟨rfl, rfl, ?_⟩
  decide
